import Mathlib

/-!
Verification of the InstaConnect core against its specification.

The development shallowly embeds the two non-trivial pieces of the
repository:

* the DM watcher loop (Python, `handle_new_dm`, `try_reply_with_backoff`,
  the tracker load at startup), and
* the login orchestrator (`instagramLogin` in TypeScript together with the
  `POST /api/login` route handler).

Effectful primitives (file system, subprocess, remote API) are passed in
explicitly as data, so every definition is executable.
-/

namespace InstaConnect

/-! ## Strings, Python-style

Python's `needle in hay` substring test and `.lower()` are modelled over
`List Char`. -/

/-- Python's `needle in hay` substring containment on character lists. -/
def pyIn (needle : List Char) : List Char → Bool
  | [] => needle.isEmpty
  | c :: rest => needle.isPrefixOf (c :: rest) || pyIn needle rest

/-- Python's `s.lower()` on a character list. -/
def pyLower (s : List Char) : List Char := s.map Char.toLower

/-! ## Watcher data model (src Python file) -/

/-- A direct message, as the watcher reads it from a thread. -/
structure Msg where
  id : String
  user_id : Nat
  text : Option (List Char)
  media_share : Bool
deriving Repr, DecidableEq

/-- A conversation thread: stable identifier plus its message sequence in
scan order. -/
structure Thread where
  id : String
  messages : List Msg
deriving Repr, DecidableEq

/-- The replied-messages tracker: a JSON object mapping thread id to the
`last_replied_msg_id` value, modelled as an association list with
insert-overwrite update (Python `dict`). -/
def Tracker := List (String × String)

instance : DecidableEq Tracker := by
  unfold Tracker
  infer_instance

/-- Python's `replied_tracker.get(thread_id, dict()).get("last_replied_msg_id")`. -/
def trackerGet (tr : Tracker) (tid : String) : Option String :=
  (tr.find? (fun p => p.1 = tid)).map (fun p => p.2)

/-- Python's `replied_tracker[thread_id] = ...` dict assignment, storing
`mid` as the new `last_replied_msg_id`. -/
def trackerSet (tr : Tracker) (tid mid : String) : Tracker :=
  (tid, mid) :: tr.filter (fun p => ¬ p.1 = tid)

/-- Python's `text = (msg.text or "").lower()` — a `None` text is
treated as the empty string before lowering. -/
def lowerText (t : Option (List Char)) : List Char := pyLower (t.getD [])

/-- The trigger test in `handle_new_dm`:
`any(t in text for t in TRIGGERS) or msg.media_share`.
The trigger list is a parameter (the repository's `triggers.py` supplies
`TRIGGERS`). -/
def matchesTrigger (triggers : List (List Char)) (m : Msg) : Bool :=
  triggers.any (fun t => pyIn t (lowerText m.text)) || m.media_share

/-! ## Per-thread watcher step (`handle_new_dm`)

The loop body, with `last_seen` read once from the tracker before the
loop.  `sendOk` is the outcome of `try_reply_with_backoff` for a given
message (the remote send capability, passed in as data). -/

/-- The `for msg in thread.messages` loop of `handle_new_dm`: break on
`msg.id == last_seen`; on the first trigger match, attempt a reply and
stop; otherwise keep scanning.  Returns the matched message together with
the reply outcome, or `none` when the loop ends without a match. -/
def dmLoop (triggers : List (List Char)) (sendOk : Msg → Bool)
    (lastSeen : Option String) : List Msg → Option (Msg × Bool)
  | [] => none
  | m :: rest =>
    if some m.id = lastSeen then none
    else if matchesTrigger triggers m then some (m, sendOk m)
    else dmLoop triggers sendOk lastSeen rest

/-- Observable outcome of one `handle_new_dm` call on one thread. -/
structure DMResult where
  /-- number of messages for which a reply was attempted this call -/
  repliesAttempted : Nat
  /-- whether the fallback `direct_send_seen` path ran (reply retries
  exhausted) -/
  markSeenAttempted : Bool
  /-- whether `save_json(TRACKER_FILE, replied_tracker)` ran -/
  savedTracker : Bool
deriving Repr, DecidableEq

/-- The function `handle_new_dm(thread)`: scan the thread's messages against the
stored `last_replied_msg_id`; on the first trigger match attempt one
reply, update the tracker to that message's id and persist it (regardless
of the reply outcome), then stop. -/
def handle_new_dm (triggers : List (List Char)) (sendOk : Msg → Bool)
    (tr : Tracker) (th : Thread) : DMResult × Tracker :=
  match dmLoop triggers sendOk (trackerGet tr th.id) th.messages with
  | none => (⟨0, false, false⟩, tr)
  | some (m, ok) => (⟨1, !ok, true⟩, trackerSet tr th.id m.id)

/-! ## Lemmas about the per-thread scan -/

theorem trackerGet_set (tr : Tracker) (tid mid : String) :
    trackerGet (trackerSet tr tid mid) tid = some mid := by
  simp [trackerGet, trackerSet, List.find?]

/-- The message found by the scan does not depend on the send outcome. -/
theorem dmLoop_msg_indep (triggers : List (List Char))
    (sendOk sendOk' : Msg → Bool) (lastSeen : Option String) :
    ∀ msgs : List Msg,
      Option.map Prod.fst (dmLoop triggers sendOk lastSeen msgs)
        = Option.map Prod.fst (dmLoop triggers sendOk' lastSeen msgs)
  | [] => rfl
  | m :: rest => by
    by_cases h1 : some m.id = lastSeen
    · simp [dmLoop, h1]
    · by_cases h2 : matchesTrigger triggers m = true
      · simp [dmLoop, h1, h2]
      · simp only [dmLoop, if_neg h1, h2, if_neg]
        exact dmLoop_msg_indep triggers sendOk sendOk' lastSeen rest

/-- After the scan returned message `m`, re-scanning the same sequence
with `last_seen = m.id` finds nothing: every message before `m` failed
the trigger test, and the scan breaks at the first occurrence of
`m.id`. -/
theorem dmLoop_after_update (triggers : List (List Char))
    (sendOk sendOk' : Msg → Bool) (lastSeen : Option String)
    (m : Msg) (ok : Bool) :
    ∀ msgs : List Msg,
      dmLoop triggers sendOk lastSeen msgs = some (m, ok) →
      dmLoop triggers sendOk' (some m.id) msgs = none
  | [], h => by simp [dmLoop] at h
  | m0 :: rest, h => by
    by_cases h1 : some m0.id = lastSeen
    · simp [dmLoop, h1] at h
    · by_cases h2 : matchesTrigger triggers m0 = true
      · simp only [dmLoop, if_neg h1, h2, if_pos, Option.some.injEq,
          Prod.mk.injEq] at h
        simp [dmLoop, h.1]
      · simp only [dmLoop, if_neg h1, h2, if_neg] at h
        by_cases h3 : some m0.id = some m.id
        · simp [dmLoop, h3]
        · simp only [dmLoop, if_neg h3, h2, if_neg]
          exact dmLoop_after_update triggers sendOk sendOk' lastSeen m ok
            rest h

/-! ## Claims about the watcher step -/

/-- C1.  For a thread whose tracker entry was set by running a watcher
cycle, re-running the cycle over the same message sequence produces zero
additional replies and leaves the tracker unchanged: the second scan
stops as soon as it hits the stored `last_replied_msg_id` (or exhausts
the same trigger-free prefix). -/
theorem handle_new_dm_idempotent (triggers : List (List Char))
    (sendOk sendOk' : Msg → Bool) (tr : Tracker) (th : Thread) :
    (handle_new_dm triggers sendOk'
        (handle_new_dm triggers sendOk tr th).2 th).1.repliesAttempted = 0
      ∧ (handle_new_dm triggers sendOk'
          (handle_new_dm triggers sendOk tr th).2 th).2
        = (handle_new_dm triggers sendOk tr th).2 := by
  rcases hscan : dmLoop triggers sendOk (trackerGet tr th.id) th.messages
    with _ | ⟨m, ok⟩
  · have h2 : dmLoop triggers sendOk' (trackerGet tr th.id) th.messages
        = none := by
      have := dmLoop_msg_indep triggers sendOk sendOk'
        (trackerGet tr th.id) th.messages
      rw [hscan] at this
      rcases h : dmLoop triggers sendOk' (trackerGet tr th.id) th.messages
        with _ | p
      · rfl
      · rw [h] at this; simp at this
    simp [handle_new_dm, hscan, h2]
  · have hnext : dmLoop triggers sendOk'
        (trackerGet (trackerSet tr th.id m.id) th.id) th.messages = none := by
      rw [trackerGet_set]
      exact dmLoop_after_update triggers sendOk sendOk'
        (trackerGet tr th.id) m ok th.messages hscan
    simp [handle_new_dm, hscan, hnext]

/-- C2.  In any single watcher cycle, `handle_new_dm` attempts at most
one reply in a given thread: the scan stops at the first trigger
match. -/
theorem handle_new_dm_at_most_one_reply (triggers : List (List Char))
    (sendOk : Msg → Bool) (tr : Tracker) (th : Thread) :
    (handle_new_dm triggers sendOk tr th).1.repliesAttempted ≤ 1 := by
  rcases hscan : dmLoop triggers sendOk (trackerGet tr th.id) th.messages
    with _ | ⟨m, ok⟩ <;> simp [handle_new_dm, hscan]

/-- C3.  When the scan matches a message, the tracker entry for the
thread is set to that message's id and the tracker file is saved, no
matter what the reply attempt returned (the matched message and the
update are the same for every send outcome). -/
theorem handle_new_dm_tracker_updated_regardless
    (triggers : List (List Char)) (sendOk : Msg → Bool) (tr : Tracker)
    (th : Thread) (m : Msg) (b : Bool)
    (h : dmLoop triggers sendOk (trackerGet tr th.id) th.messages
      = some (m, b)) :
    (handle_new_dm triggers sendOk tr th).1.savedTracker = true
      ∧ (handle_new_dm triggers sendOk tr th).2 = trackerSet tr th.id m.id
      ∧ trackerGet (handle_new_dm triggers sendOk tr th).2 th.id
        = some m.id
      ∧ ∀ sendOk' : Msg → Bool, ∃ b' : Bool,
          dmLoop triggers sendOk' (trackerGet tr th.id) th.messages
            = some (m, b')
          ∧ (handle_new_dm triggers sendOk' tr th).2
            = trackerSet tr th.id m.id
          ∧ (handle_new_dm triggers sendOk' tr th).1.savedTracker
            = true := by
  refine ⟨by simp [handle_new_dm, h], by simp [handle_new_dm, h],
    ?_, ?_⟩
  · simp [handle_new_dm, h, trackerGet_set]
  · intro sendOk'
    have hind := dmLoop_msg_indep triggers sendOk sendOk'
      (trackerGet tr th.id) th.messages
    rw [h] at hind
    rcases h' : dmLoop triggers sendOk' (trackerGet tr th.id) th.messages
      with _ | ⟨m', b'⟩
    · rw [h'] at hind; simp at hind
    · rw [h'] at hind
      have hm : m = m' := by simpa using hind
      subst hm
      exact ⟨b', rfl, by simp [handle_new_dm, h'], by
        simp [handle_new_dm, h']⟩

/-- C3 witness: a concrete thread where the trigger matches and the send
fails; the tracker is still updated and saved. -/
theorem handle_new_dm_tracker_updated_regardless_witness :
    (handle_new_dm [['h', 'i']] (fun _ => false) []
        ⟨"t1", [⟨"m6", 7, some ['H', 'i'], false⟩]⟩).1.savedTracker = true
      ∧ (handle_new_dm [['h', 'i']] (fun _ => false) []
          ⟨"t1", [⟨"m6", 7, some ['H', 'i'], false⟩]⟩).2
        = trackerSet [] "t1" "m6" := by
  have h := handle_new_dm_tracker_updated_regardless [['h', 'i']]
    (fun _ => false) [] ⟨"t1", [⟨"m6", 7, some ['H', 'i'], false⟩]⟩
    ⟨"m6", 7, some ['H', 'i'], false⟩ false (by decide)
  exact ⟨h.1, h.2.1⟩

/-- C7.  A message triggers a reply iff its lowered text (empty when
`None`) contains some configured trigger as a substring — equivalently,
a case-insensitive substring match, when the configured triggers are
lowercase — or its media-share flag is set; with nonempty triggers, a
message with `None` text and no media share never triggers. -/
theorem matchesTrigger_spec (triggers : List (List Char)) (m : Msg)
    (hlow : ∀ t ∈ triggers, pyLower t = t)
    (hne : ∀ t ∈ triggers, t ≠ []) :
    (matchesTrigger triggers m = true ↔
      (∃ t ∈ triggers, pyIn (pyLower t) (lowerText m.text) = true)
        ∨ m.media_share = true)
      ∧ (m.text = none → m.media_share = false →
          matchesTrigger triggers m = false) := by
  constructor
  · rw [matchesTrigger, Bool.or_eq_true, List.any_eq_true]
    constructor
    · rintro (⟨t, ht, hin⟩ | hm)
      · exact Or.inl ⟨t, ht, by rwa [hlow t ht]⟩
      · exact Or.inr hm
    · rintro (⟨t, ht, hin⟩ | hm)
      · exact Or.inl ⟨t, ht, by rwa [hlow t ht] at hin⟩
      · exact Or.inr hm
  · intro htext hmedia
    rw [matchesTrigger, htext, hmedia, Bool.or_false, List.any_eq_false]
    intro t ht
    have : lowerText (none : Option (List Char)) = [] := rfl
    rw [this]
    cases t with
    | nil => exact absurd rfl (hne [] ht)
    | cons c cs => simp [pyIn]

/-- C7 witness: with the lowercase nonempty trigger list `["hi"]`, a
message whose text is `"HI there"` matches, and a message with no text
and no media share does not. -/
theorem matchesTrigger_spec_witness :
    ((matchesTrigger [['h', 'i']] ⟨"m1", 1, some ['H', 'I'], false⟩ = true ↔
        (∃ t ∈ [['h', 'i']],
            pyIn (pyLower t)
              (lowerText (some ['H', 'I'] : Option (List Char))) = true)
          ∨ false = true)
      ∧ ((some ['H', 'I'] : Option (List Char)) = none → false = false →
          matchesTrigger [['h', 'i']] ⟨"m1", 1, some ['H', 'I'], false⟩
            = false))
    ∧ matchesTrigger [['h', 'i']] ⟨"m2", 1, none, false⟩ = false := by
  constructor
  · exact matchesTrigger_spec [['h', 'i']]
      ⟨"m1", 1, some ['H', 'I'], false⟩ (by decide) (by decide)
  · exact (matchesTrigger_spec [['h', 'i']] ⟨"m2", 1, none, false⟩
      (by decide) (by decide)).2 rfl rfl

/-! ## RetryingSender (`try_reply_with_backoff`) -/

/-- Outcome of one `bot.direct_answer` call: success, or the
`UnknownError` the retry loop catches. -/
inductive SendOutcome
  | ok
  | unknownError
deriving Repr, DecidableEq

/-- The `for i in range(retries)` loop of `try_reply_with_backoff`,
starting at attempt index `i` with `fuel` iterations left.  Returns the
result, the list of backoff delays slept (in seconds, `2 ** i` after the
failure of attempt `i`), and the number of send attempts made. -/
def backoffLoop (send : Nat → SendOutcome) :
    Nat → Nat → Bool × List Nat × Nat
  | _, 0 => (false, [], 0)
  | i, fuel + 1 =>
    match send i with
    | .ok => (true, [], 1)
    | .unknownError =>
      let r := backoffLoop send (i + 1) fuel
      (r.1, 2 ^ i :: r.2.1, r.2.2 + 1)

/-- The function `try_reply_with_backoff(thread_id, text, retries)`, with the remote
send capability abstracted as `send` (indexed by attempt number).  The
source default for `retries` is 3. -/
def try_reply_with_backoff (send : Nat → SendOutcome) (retries : Nat) :
    Bool × List Nat × Nat :=
  backoffLoop send 0 retries

theorem backoffLoop_all_fail (send : Nat → SendOutcome)
    (hfail : ∀ i, send i = .unknownError) :
    ∀ fuel i, backoffLoop send i fuel
      = (false, (List.range fuel).map (fun k => 2 ^ (i + k)), fuel) := by
  intro fuel
  induction fuel with
  | zero => intro i; rfl
  | succ n ih =>
    intro i
    rw [backoffLoop, hfail i, ih (i + 1)]
    simp only [Prod.mk.injEq]
    refine ⟨trivial, ?_, trivial⟩
    rw [List.range_succ_eq_map, List.map_cons, List.map_map]
    refine congrArg₂ _ (by rw [Nat.add_zero]) ?_
    refine List.map_congr_left fun k _ => ?_
    simp only [Function.comp_apply]
    congr 1
    omega

/-- C4.  With a sender that fails transiently on every attempt,
`try_reply_with_backoff` returns `false` after exactly `retries` send
attempts (default 3), sleeping `2 ^ attempt` seconds (base 1 × 2^attempt)
after each failed attempt, a non-decreasing sequence of delays; with a
sender that succeeds on the first attempt it returns `true` after that
single attempt, with no delay. -/
theorem try_reply_with_backoff_spec (send send' : Nat → SendOutcome)
    (retries : Nat) (hfail : ∀ i, send i = .unknownError)
    (hok : send' 0 = .ok) (hr : 1 ≤ retries) :
    try_reply_with_backoff send retries
      = (false, (List.range retries).map (fun a => 2 ^ a), retries)
    ∧ List.Chain' (· ≤ ·) (try_reply_with_backoff send retries).2.1
    ∧ try_reply_with_backoff send' retries = (true, [], 1) := by
  have hmain : try_reply_with_backoff send retries
      = (false, (List.range retries).map (fun a => 2 ^ a), retries) := by
    rw [try_reply_with_backoff, backoffLoop_all_fail send hfail retries 0]
    simp
  refine ⟨hmain, ?_, ?_⟩
  · rw [hmain]
    refine List.Pairwise.chain' ?_
    refine List.Pairwise.map _ (fun a b hab => ?_)
      (List.pairwise_lt_range retries)
    exact Nat.pow_le_pow_right (by norm_num) (Nat.le_of_lt hab)
  · obtain ⟨n, rfl⟩ := Nat.exists_eq_add_of_le hr
    rw [try_reply_with_backoff, Nat.add_comm, backoffLoop, hok]

/-- C4 witness: with `retries = 3`, an always-failing sender yields
`(false, [1, 2, 4], 3)` and a first-try-succeeding sender yields
`(true, [], 1)`. -/
theorem try_reply_with_backoff_spec_witness :
    try_reply_with_backoff (fun _ => .unknownError) 3 = (false, [1, 2, 4], 3)
    ∧ List.Chain' (· ≤ ·)
        (try_reply_with_backoff (fun _ => .unknownError) 3).2.1
    ∧ try_reply_with_backoff (fun _ => .ok) 3 = (true, [], 1) := by
  have h := try_reply_with_backoff_spec (fun _ => .unknownError)
    (fun _ => .ok) 3 (fun _ => rfl) rfl (by decide)
  exact ⟨by rw [h.1]; rfl, h.2.1, h.2.2⟩

/-! ## Tracker load at startup -/

/-- State of the tracker file at startup: `none` = the file is missing
(`FileNotFoundError`), `some none` = the file exists but is not valid
JSON (`json.JSONDecodeError`), `some (some t)` = it parses to `t`.
Returns the initial `replied_tracker` together with whether
`save_json(TRACKER_FILE, replied_tracker)` was run to (re)write the
file. -/
def loadTracker (file : Option (Option Tracker)) : Tracker × Bool :=
  match file with
  | some (some t) => (t, false)
  | _ => (([] : Tracker), true)

/-- C9.  A missing or corrupt tracker file is replaced by the empty
mapping, which is written back immediately; a parsable file is loaded
as-is with no write. -/
theorem loadTracker_spec :
    loadTracker none = (([] : Tracker), true)
    ∧ loadTracker (some none) = (([] : Tracker), true)
    ∧ ∀ t : Tracker, loadTracker (some (some t)) = (t, false) :=
  ⟨rfl, rfl, fun _ => rfl⟩

/-! ## Login orchestrator (`instagramLogin`) and the `POST /api/login`
route -/

/-- A challenge delivery method: channel type plus masked
destination. -/
structure ChallengeMethod where
  type : String
  destination : String
deriving Repr, DecidableEq

/-- The `LoginResult` response shape; an absent optional JSON field is
modelled as `false` / `none` / `[]`. -/
structure LoginResult where
  success : Bool := false
  message : Option String := none
  requiresTwoFactor : Bool := false
  requiresChallenge : Bool := false
  challengeMethods : List ChallengeMethod := []
  sessionExists : Bool := false
  sessionFile : Option String := none
deriving Repr, DecidableEq

/-- Modelled from the spec: the repository's `server/instagram_login.py`
script is not under `src/`.  Per the spec's login state machine, a
zero-exit run prints a JSON result that is exactly one of: credentials
accepted (`success=true`), two-factor required, challenge required (with
the offered methods), or a plain failure with a message. -/
inductive PyResult
  | accepted (message : Option String)
  | twoFactorRequired (message : Option String)
  | challengeRequired (methods : List ChallengeMethod)
      (message : Option String)
  | failed (message : Option String)
deriving Repr, DecidableEq

/-- The `LoginResult` carried by the script's JSON for each outcome. -/
def PyResult.toLoginResult : PyResult → LoginResult
  | .accepted msg => { success := true, message := msg }
  | .twoFactorRequired msg =>
      { success := false, requiresTwoFactor := true, message := msg }
  | .challengeRequired methods msg =>
      { success := false, requiresChallenge := true,
        challengeMethods := methods, message := msg }
  | .failed msg => { success := false, message := msg }

/-- Observed behavior of the spawned `python3` subprocess: exit code at
the `close` event, accumulated standard output parsed with `JSON.parse`
when possible (`none` = unparseable), and accumulated standard error. -/
structure SpawnRun where
  exitCode : Int
  stdoutJson : Option PyResult
  stderr : List Char
deriving Repr, DecidableEq

/-- The environment `instagramLogin` runs against: whether
`{username}_session.json` exists (`fs.access` succeeds), and the
subprocess behavior; `Except.error` is the process `error` event, which
rejects the promise with the given message. -/
structure AuthEnv where
  sessionFileExists : Bool
  spawn : Except (List Char) SpawnRun

/-- The `LoginParams` of `instagramLogin`. -/
structure LoginParams where
  username : String
  password : String
  reuseSession : Option Bool := none
  twoFactorCode : Option String := none
  challengeMethod : Option String := none
  challengeCode : Option String := none

/-- The function `instagramLogin(params)`.  The second component of a successful
outcome records whether the login subprocess (the remote attempt) was
spawned. -/
def instagramLogin (env : AuthEnv) (p : LoginParams) :
    Except (List Char) (LoginResult × Bool) :=
  if env.sessionFileExists = true ∧ p.reuseSession = none then
    .ok ({ success := false, sessionExists := true,
           sessionFile := some (p.username ++ "_session.json") }, false)
  else
    match env.spawn with
    | .error e => .error ("Failed to start Python process: ".toList ++ e)
    | .ok run =>
      if run.exitCode = 0 then
        match run.stdoutJson with
        | some r => .ok (r.toLoginResult, true)
        | none =>
            .ok ({ success := true, message := some "Login successful!" },
              true)
      else
        if pyIn "two-factor".toList (pyLower run.stderr)
            || pyIn "2fa".toList (pyLower run.stderr) then
          .ok ({ success := false, requiresTwoFactor := true,
                 message := some "Two-factor authentication required" },
            true)
        else if pyIn "challenge".toList (pyLower run.stderr) then
          .ok ({ success := false, requiresChallenge := true,
                 challengeMethods :=
                   [⟨"sms", "+1 •••• •••• 1234"⟩,
                    ⟨"email", "u***@example.com"⟩],
                 message := some "Security challenge required" }, true)
        else
          .ok ({ success := false,
                 message := some (String.mk
                   (if run.stderr.isEmpty then "Login failed".toList
                    else run.stderr)) }, true)

/-- JavaScript falsiness of an optional string request field: absent
(`undefined`) or the empty string. -/
def jsFalsy : Option String → Bool
  | none => true
  | some s => s == ""

/-- Request body of `POST /api/login`. -/
structure LoginBody where
  username : Option String := none
  password : Option String := none
  reuseSession : Option Bool := none
  twoFactorCode : Option String := none
  challengeMethod : Option String := none
  challengeCode : Option String := none

/-- One HTTP response of the login route: status code, JSON body, and
whether a login subprocess was spawned while producing it. -/
structure RouteResponse where
  status : Nat
  body : LoginResult
  remoteCalled : Bool
deriving Repr, DecidableEq

/-- The `POST /api/login` handler: validate credentials, call
`instagramLogin`, turn a rejected promise into a 500 response. -/
def postLogin (env : AuthEnv) (b : LoginBody) : RouteResponse :=
  if jsFalsy b.username || jsFalsy b.password then
    ⟨400, { success := false,
            message := some "Username and password are required" }, false⟩
  else
    match instagramLogin env
        { username := b.username.getD "", password := b.password.getD "",
          reuseSession := b.reuseSession,
          twoFactorCode := b.twoFactorCode,
          challengeMethod := b.challengeMethod,
          challengeCode := b.challengeCode } with
    | .ok (r, called) => ⟨200, r, called⟩
    | .error e =>
        ⟨500, { success := false,
                message := some (String.mk
                  (if e.isEmpty then "Internal server error".toList
                   else e)) }, true⟩

/-- The "plain failure" response variant: `success=false` with none of
the other distinguishing flags set. -/
def plainFailure (r : LoginResult) : Bool :=
  !r.success && !r.sessionExists && !r.requiresTwoFactor
    && !r.requiresChallenge

/-- How many of the five mutually exclusive response variants hold. -/
def variantCount (r : LoginResult) : Nat :=
  List.count true [r.success, r.sessionExists, r.requiresTwoFactor,
    r.requiresChallenge, plainFailure r]

theorem instagramLogin_ok_exclusive (env : AuthEnv) (p : LoginParams)
    (r : LoginResult) (called : Bool)
    (h : instagramLogin env p = .ok (r, called)) : variantCount r = 1 := by
  unfold instagramLogin at h
  split at h
  · simp only [Except.ok.injEq, Prod.mk.injEq] at h
    obtain ⟨rfl, -⟩ := h
    rfl
  · split at h
    · exact absurd h (by simp)
    · split at h
      · rename_i run _ _
        rcases hj : run.stdoutJson with _ | pr <;> rw [hj] at h <;>
          simp only [Except.ok.injEq, Prod.mk.injEq] at h
        · obtain ⟨rfl, -⟩ := h
          rfl
        · obtain ⟨rfl, -⟩ := h
          cases pr <;> rfl
      · split at h
        · simp only [Except.ok.injEq, Prod.mk.injEq] at h
          obtain ⟨rfl, -⟩ := h
          rfl
        · split at h <;>
            simp only [Except.ok.injEq, Prod.mk.injEq] at h <;>
            obtain ⟨rfl, -⟩ := h <;> rfl

/-- C6.  Every response of the login route satisfies exactly one of
`success=true`, `sessionExists=true`, `requiresTwoFactor=true`,
`requiresChallenge=true`, or plain failure. -/
theorem postLogin_exactly_one_variant (env : AuthEnv) (b : LoginBody) :
    variantCount (postLogin env b).body = 1 := by
  unfold postLogin
  split
  · rfl
  · rcases hlog : instagramLogin env
        { username := b.username.getD "", password := b.password.getD "",
          reuseSession := b.reuseSession,
          twoFactorCode := b.twoFactorCode,
          challengeMethod := b.challengeMethod,
          challengeCode := b.challengeCode } with e | ⟨r, called⟩
    · simp [variantCount, plainFailure]
    · exact instagramLogin_ok_exclusive env _ r called hlog

/-- C5.  When the session file exists and `reuseSession` was not
supplied, `instagramLogin` returns `sessionExists=true` with the session
file name and does not spawn the login subprocess, for every combination
of the other optional fields and every subprocess behavior. -/
theorem instagramLogin_session_exists (env : AuthEnv) (p : LoginParams)
    (hfile : env.sessionFileExists = true)
    (hreuse : p.reuseSession = none) :
    instagramLogin env p
      = .ok ({ success := false, sessionExists := true,
               sessionFile := some (p.username ++ "_session.json") },
          false) := by
  unfold instagramLogin
  rw [if_pos ⟨hfile, hreuse⟩]

/-- C5 witness: a concrete call with all other optional fields supplied
and a subprocess that would reject, returning the session-exists
result without any spawn. -/
theorem instagramLogin_session_exists_witness :
    instagramLogin ⟨true, .error []⟩
        { username := "alice", password := "pw",
          twoFactorCode := some "123456", challengeMethod := some "sms",
          challengeCode := some "000" }
      = .ok ({ success := false, sessionExists := true,
               sessionFile := some ("alice" ++ "_session.json") },
          false) :=
  instagramLogin_session_exists ⟨true, .error []⟩
    { username := "alice", password := "pw",
      twoFactorCode := some "123456", challengeMethod := some "sms",
      challengeCode := some "000" } rfl rfl

/-- C8.  A login request with a missing or empty username or password is
rejected with HTTP 400, `success=false` and an explanatory message, and
no login subprocess is spawned. -/
theorem postLogin_rejects_missing_credentials (env : AuthEnv)
    (b : LoginBody)
    (h : (jsFalsy b.username || jsFalsy b.password) = true) :
    postLogin env b
      = ⟨400, { success := false,
                message := some "Username and password are required" },
          false⟩ := by
  unfold postLogin
  rw [if_pos h]

/-- C8 witness: a request with no username and a nonempty password is
rejected without a remote call. -/
theorem postLogin_rejects_missing_credentials_witness :
    postLogin ⟨false, .error []⟩ { password := some "pw" }
      = ⟨400, { success := false,
                message := some "Username and password are required" },
          false⟩ :=
  postLogin_rejects_missing_credentials ⟨false, .error []⟩
    { password := some "pw" } (by decide)

/-- C10.  When the login subprocess exits with code 0, `instagramLogin`
resolves with the result parsed from its standard output when that is
valid JSON, and otherwise with `success=true` and the message
"Login successful!" — an unparseable zero-exit run is reported as a
successful login. -/
theorem instagramLogin_zero_exit (env : AuthEnv) (p : LoginParams)
    (run : SpawnRun)
    (hnosess : ¬ (env.sessionFileExists = true ∧ p.reuseSession = none))
    (hspawn : env.spawn = .ok run) (hcode : run.exitCode = 0) :
    (∀ r : PyResult, run.stdoutJson = some r →
        instagramLogin env p = .ok (r.toLoginResult, true))
    ∧ (run.stdoutJson = none →
        instagramLogin env p
          = .ok ({ success := true, message := some "Login successful!" },
              true)) := by
  unfold instagramLogin
  rw [if_neg hnosess, hspawn]
  constructor
  · intro r hr
    simp [hcode, hr]
  · intro hr
    simp [hcode, hr]

/-- C10 witness: a zero-exit run whose output is not valid JSON is
reported as a successful login. -/
theorem instagramLogin_zero_exit_witness :
    instagramLogin ⟨false, .ok ⟨0, none, []⟩⟩
        { username := "alice", password := "pw" }
      = .ok ({ success := true, message := some "Login successful!" },
          true) :=
  (instagramLogin_zero_exit ⟨false, .ok ⟨0, none, []⟩⟩
    { username := "alice", password := "pw" } ⟨0, none, []⟩
    (by decide) rfl rfl).2 rfl

end InstaConnect
